import Mathlib

/-!
Verification development for the Snowflake logging pipeline
(`src/backend/snowflake_logger.py`).

The Python handler is shallowly embedded: each method of
`SnowflakeHandler` becomes a pure Lean function over an explicit
`HandlerState`, external effects (the Snowflake connector's `connect`
and `executemany`) are driven by outcome oracles in `Env`, and the
observable side effects (log lines, deliveries, back-off sleeps) are
recorded as a trace of `Effect`s.
-/

/-- Captured exception information attached to a log record
(`record.exc_info` decomposed as in `_format_record`). -/
structure ExcInfo where
  typeName : Option String
  message : Option String
  formatted : String
deriving DecidableEq, Repr

/-- A `logging.LogRecord` as the handler reads it: the standard
attributes used by `_format_record` and `emit`, the three promoted
domain fields, and the remaining open-ended `__dict__` entries
(`extra`), whose values are already coerced to text. -/
structure LogRecord where
  name : String
  levelname : String
  msg : String
  created : Nat
  process : Nat
  threadName : String
  agent_id : Option String
  endpoint : Option String
  execution_context : Option String
  excInfo : Option ExcInfo
  extra : List (String × String)
deriving DecidableEq, Repr

/-- A formatted row, the exact dict built by `_format_record`. -/
structure Row where
  log_timestamp : Nat
  level : String
  logger_name : String
  message : String
  agent_id : Option String
  endpoint : Option String
  execution_context : Option String
  exception_type : Option String
  exception_message : Option String
  stack_trace : Option String
  metadata : Option (List (String × String))
  host : String
  process_id : Nat
  thread_name : String
deriving DecidableEq, Repr

/-- Python `queue.Queue`: `maxsize = 0` means unbounded, a positive
`maxsize` bounds the number of held items. -/
structure PyQueue (α : Type) where
  maxsize : Nat
  items : List α
deriving DecidableEq, Repr

/-- The queue constructor used in `__init__`: `queue.Queue()`,
i.e. `maxsize = 0` (unbounded). -/
def PyQueue.empty (α : Type) : PyQueue α := ⟨0, []⟩

/-- `Queue.put_nowait`: raises `queue.Full` when a positive `maxsize`
is already reached, otherwise appends the item at the tail. -/
def PyQueue.put_nowait {α : Type} (q : PyQueue α) (x : α) :
    Except Unit (PyQueue α) :=
  if 0 < q.maxsize ∧ q.maxsize ≤ q.items.length then .error ()
  else .ok ⟨q.maxsize, q.items ++ [x]⟩

/-- `Queue.get(timeout=...)` as the worker sees it: the head item when
one is queued, otherwise the `queue.Empty` timeout result. -/
def PyQueue.get {α : Type} (q : PyQueue α) : Option (α × PyQueue α) :=
  match q.items with
  | [] => none
  | x :: rest => some (x, ⟨q.maxsize, rest⟩)

/-- Mutable state of one `SnowflakeHandler` instance: the fields set in
`__init__` that the claims concern.  `connection` is the nullable
handle (`true` iff a live connection is held); `connAttempts` and
`execAttempts` count calls into the external connector so the outcome
oracles can be consulted deterministically. -/
structure HandlerState where
  log_queue : PyQueue LogRecord
  connection : Bool
  batch : List Row
  running : Bool
  hostname : String
  batch_size : Nat
  flush_interval : Nat
  last_flush : Nat
  connAttempts : Nat
  execAttempts : Nat
deriving DecidableEq, Repr

/-- Outcomes of the external Snowflake connector, indexed by attempt
number: `connectOutcome n` is whether the `n`-th
`snowflake.connector.connect` call succeeds, `execOutcome n` whether
the `n`-th `cursor.executemany` call succeeds. -/
structure Env where
  connectOutcome : Nat → Bool
  execOutcome : Nat → Bool

/-- Observable side effects of the handler, in order. -/
inductive Effect where
  | connectAttempt (ok : Bool)
  | delivered (rows : List Row)
  | flushError
  | dropWarning (n : Nat)
  | workerError
  | backoff (secs : Nat)
deriving DecidableEq, Repr

/-- Configuration accepted by `SnowflakeHandler.__init__`. -/
structure HandlerConfig where
  account : String
  user : String
  password : Option String
  token : Option String
  database : String
  schema : String
  warehouse : String
  role : Option String
  batch_size : Nat
  flush_interval : Nat
  table_name : String
deriving DecidableEq, Repr

/-- `SnowflakeHandler.__init__` up to (but not including) the calls to
`_connect` and `_start_worker`: raises `ImportError` when the
connector package is missing, raises `ValueError` when neither
`password` nor `token` is given, and otherwise builds the initial
state — unbounded queue, no connection, empty batch — with the given
hostname (`socket.gethostname()`). -/
def initHandler (snowflakeAvailable : Bool) (hostname : String)
    (cfg : HandlerConfig) : Except String HandlerState :=
  if snowflakeAvailable = false then
    .error "ImportError: snowflake-connector-python is not installed"
  else if cfg.password.isNone ∧ cfg.token.isNone then
    .error "ValueError: Either password or token must be provided"
  else
    .ok { log_queue := PyQueue.empty LogRecord
          connection := false
          batch := []
          running := false
          hostname := hostname
          batch_size := cfg.batch_size
          flush_interval := cfg.flush_interval
          last_flush := 0
          connAttempts := 0
          execAttempts := 0 }

/-- Credential-dependent connection parameters chosen in `_connect`
(lines 101-105): a token selects OAuth and shadows any password, a
password alone is passed directly. -/
def credParams (password token : Option String) : List (String × String) :=
  match token with
  | some t => [("token", t), ("authenticator", "oauth")]
  | none =>
    match password with
    | some p => [("password", p)]
    | none => []

/-- `_connect`: one fresh attempt against the external connector;
on success the handle is stored, on failure the error is logged and
the handle is left unset.  Never raises to its caller. -/
def connectStep (env : Env) (s : HandlerState) : HandlerState × List Effect :=
  let ok := env.connectOutcome s.connAttempts
  if ok then
    ({ s with connection := true, connAttempts := s.connAttempts + 1 },
     [.connectAttempt true])
  else
    ({ s with connection := false, connAttempts := s.connAttempts + 1 },
     [.connectAttempt false])

/-- The attribute names excluded from the metadata map in
`_format_record` (lines 175-179). -/
def standardFields : List String :=
  ["name", "msg", "args", "created", "filename", "funcName",
   "levelname", "levelno", "lineno", "module", "msecs",
   "message", "pathname", "process", "processName", "relativeCreated",
   "thread", "threadName", "exc_info", "exc_text", "stack_info",
   "agent_id", "endpoint", "execution_context"]

/-- The metadata map built by `_format_record`: every `__dict__` entry
whose key is not a standard or promoted field, value coerced to text. -/
def buildMetadata (extra : List (String × String)) : List (String × String) :=
  extra.filter (fun kv => ¬ standardFields.contains kv.fst)

/-- `_format_record`: convert a `LogRecord` to the Snowflake row shape.
`hostname` is the handler's own `self.hostname`; every other column is
computed from the record exactly as in lines 154-201. -/
def formatRecord (hostname : String) (r : LogRecord) : Row :=
  let exception_type := match r.excInfo with
    | none => none
    | some e => e.typeName
  let exception_message := match r.excInfo with
    | none => none
    | some e => e.message
  let stack_trace := match r.excInfo with
    | none => none
    | some e => some e.formatted
  let md := buildMetadata r.extra
  { log_timestamp := r.created
    level := r.levelname
    logger_name := r.name
    message := r.msg
    agent_id := r.agent_id
    endpoint := r.endpoint
    execution_context := r.execution_context
    exception_type := exception_type
    exception_message := exception_message
    stack_trace := stack_trace
    metadata := if md = [] then none else some md
    host := hostname
    process_id := r.process
    thread_name := r.threadName }

/-- `_flush_batch`: empty batch returns immediately; with no live
connection one reconnect is attempted and, failing that, the batch is
dropped with a warning; otherwise one `executemany` is issued — on
success the batch is cleared and delivered, on a raised failure the
error is logged, the batch is cleared anyway and the connection is
invalidated. -/
def flushBatch (env : Env) (s : HandlerState) : HandlerState × List Effect :=
  if s.batch.isEmpty then (s, [])
  else
    let step1 := if s.connection then (s, ([] : List Effect)) else connectStep env s
    let s1 := step1.1
    let fx1 := step1.2
    if s1.connection = false then
      ({ s1 with batch := [] }, fx1 ++ [.dropWarning s1.batch.length])
    else
      let ok := env.execOutcome s1.execAttempts
      let s2 := { s1 with execAttempts := s1.execAttempts + 1 }
      if ok then
        ({ s2 with batch := [] }, fx1 ++ [.delivered s1.batch])
      else
        ({ s2 with batch := [], connection := false }, fx1 ++ [.flushError])

/-- The flush condition of the worker loop (lines 140-144), computed on
the batch as it stands after the dequeue attempt. -/
def shouldFlush (s : HandlerState) (now : Nat) : Bool :=
  decide (s.batch.length ≥ s.batch_size) ||
    (!s.batch.isEmpty && decide (now - s.last_flush ≥ s.flush_interval))

/-- The dequeue attempt of one worker iteration (lines 132-137): a
queued event is formatted and appended to the batch, a `queue.Empty`
timeout leaves the state alone. -/
def dequeueStep (s : HandlerState) : HandlerState :=
  match s.log_queue.get with
  | none => s
  | some (r, q) =>
    { s with log_queue := q,
             batch := s.batch ++ [formatRecord s.hostname r] }

/-- One iteration of the `_worker` try-block (lines 131-148): a dequeue
attempt with timeout, then the flush condition is evaluated and, if it
holds, `_flush_batch` runs and the flush timer resets to the current
time.  The returned flag records whether a flush was performed. -/
def workerIterBody (env : Env) (now : Nat) (s : HandlerState) :
    HandlerState × List Effect × Bool :=
  let s1 := dequeueStep s
  if shouldFlush s1 now then
    let res := flushBatch env s1
    ({ res.1 with last_flush := now }, res.2, true)
  else (s1, [], false)

/-- The `while self.running` iteration with its protective
`try/except` (lines 129-152): a body that completes yields its result,
a body that raises is caught — the error is logged, a fixed one-second
back-off follows, and the state (in particular `running`) is left
untouched so the loop continues. -/
def workerStep (s : HandlerState)
    (bodyResult : Except String (HandlerState × List Effect × Bool)) :
    HandlerState × List Effect :=
  match bodyResult with
  | .ok (s1, fx, _) => (s1, fx)
  | .error _ => (s, [.workerError, .backoff 1])

/-- Python `str.startswith`, modelled on the character sequences. -/
def pyStartsWith (s pre : String) : Bool := pre.data.isPrefixOf s.data

/-- `emit` (lines 254-270): the handler's public entry point.  Events
from the Snowflake connector's own logger namespace are filtered out,
everything else is enqueued with `put_nowait`; a `queue.Full` result is
swallowed (the incoming record is dropped) and any other exception is
routed to `handleError`, which returns normally — so the result is the
outcome seen by the caller. -/
def emit (s : HandlerState) (r : LogRecord) : Except String HandlerState :=
  if pyStartsWith r.name "snowflake" then .ok s
  else
    match s.log_queue.put_nowait r with
    | .ok q => .ok { s with log_queue := q }
    | .error _ => .ok s

/-- The state after `emit` returns (it always returns normally). -/
def emitRun (s : HandlerState) (r : LogRecord) : HandlerState :=
  match emit s r with
  | .ok s1 => s1
  | .error _ => s

/-- The flush trigger as the specification words it: flush when the
batch length is at least `batch_size`, or when the batch is non-empty
and the elapsed time since the last flush is at least
`flush_interval`. -/
def flushTrigger (batch : List Row) (batch_size elapsed flush_interval : Nat) : Prop :=
  batch.length ≥ batch_size ∨ (batch ≠ [] ∧ elapsed ≥ flush_interval)

/-- Concrete fixtures used to instantiate the theorems below. -/
def recA : LogRecord :=
  { name := "app.module", levelname := "INFO", msg := "hello",
    created := 1000, process := 4242, threadName := "producer-1",
    agent_id := none, endpoint := none, execution_context := none,
    excInfo := none, extra := [] }

/-- A record equal to `recA` except for the process id and thread name
captured on it. -/
def recB : LogRecord := { recA with process := 7, threadName := "producer-2" }

/-- A record carrying the Snowflake connector library's logger name. -/
def recConnector : LogRecord := { recA with name := "snowflake.connector.network" }

/-- A handler state as produced by construction, with the worker
running and a live connection. -/
def sampleState : HandlerState :=
  { log_queue := PyQueue.empty LogRecord, connection := true, batch := [],
    running := true, hostname := "pipeline-host", batch_size := 100,
    flush_interval := 5, last_flush := 0, connAttempts := 0, execAttempts := 0 }

/-- An environment in which every connector call succeeds. -/
def okEnv : Env := ⟨fun _ => true, fun _ => true⟩

/-- An environment in which every connector call fails. -/
def failEnv : Env := ⟨fun _ => false, fun _ => false⟩

/-- The row `recA` formats to under the sample hostname. -/
def row0 : Row := formatRecord "pipeline-host" recA

/-- A reference configuration with password-only credentials. -/
def cfg0 : HandlerConfig :=
  { account := "acct", user := "svc", password := some "pw", token := none,
    database := "LOG_DB", schema := "RAW", warehouse := "LOG_WH", role := none,
    batch_size := 100, flush_interval := 5, table_name := "app_logs" }

/-- The reference configuration with both credential kinds supplied. -/
def cfgBoth : HandlerConfig := { cfg0 with token := some "tok" }

/-- Helper: `_flush_batch` on an empty batch returns at once, with the
state unchanged and no effects. -/
theorem flushBatch_empty (env : Env) (s : HandlerState) (h : s.batch = []) :
    flushBatch env s = (s, []) := by
  unfold flushBatch
  simp [h]

/-- Helper: after any `_flush_batch` call the batch is empty. -/
theorem flushBatch_fst_batch (env : Env) (s : HandlerState) :
    (flushBatch env s).1.batch = [] := by
  unfold flushBatch connectStep
  rcases hb : s.batch with _ | ⟨r, rest⟩
  · simp [hb]
  · simp only [hb, List.isEmpty_cons, if_neg]
    split_ifs <;> simp_all

/-- Helper: `emit` on a record whose name does not start with
"snowflake", against an unbounded queue, appends the record. -/
theorem emitRun_unbounded (s : HandlerState) (r : LogRecord)
    (hq : s.log_queue.maxsize = 0)
    (hn : pyStartsWith r.name "snowflake" = false) :
    emitRun s r = { s with log_queue := ⟨0, s.log_queue.items ++ [r]⟩ } := by
  unfold emitRun emit PyQueue.put_nowait
  simp [hn, hq]

/-- C1: every flush attempt by the worker — `executeBatch` success,
`executeBatch` raising, or no connection obtainable — leaves the batch
empty immediately afterwards, and a repeated flush with no newly
dequeued events is a no-op delivering zero rows, so no batch is ever
delivered more than once. -/
theorem C1_batch_empty_after_flush (env env2 : Env) (s : HandlerState) :
    (flushBatch env s).1.batch = [] ∧
    flushBatch env2 (flushBatch env s).1 = ((flushBatch env s).1, []) :=
  ⟨flushBatch_fst_batch env s,
   flushBatch_empty env2 _ (flushBatch_fst_batch env s)⟩

/-- C10: when the batch is empty, `_flush_batch` is a no-op — it
returns at once with no `executeBatch`, no connect attempt, no effects
and the whole handler state (connection handle included) unchanged. -/
theorem C10_empty_flush_noop (env : Env) (s : HandlerState)
    (h : s.batch = []) :
    flushBatch env s = (s, []) :=
  flushBatch_empty env s h

/-- Witness for C10 at a concrete state with an empty batch. -/
theorem C10_empty_flush_noop_witness :
    sampleState.batch = [] ∧ flushBatch okEnv sampleState = (sampleState, []) :=
  ⟨rfl, C10_empty_flush_noop okEnv sampleState rfl⟩

/-- C6: for every event and every handler state, `emit` returns
normally to the caller — the `queue.Full` overflow and the generic
exception handler both swallow the failure (and the queue call itself
is the non-blocking `put_nowait`). -/
theorem C6_emit_returns_normally (s : HandlerState) (r : LogRecord) :
    ∃ s1, emit s r = Except.ok s1 := by
  unfold emit
  split
  · exact ⟨s, rfl⟩
  · split
    · exact ⟨_, rfl⟩
    · exact ⟨s, rfl⟩

/-- C5 counterexample: two records formatted under the same pipeline
context (hostname "pipeline-host") but captured on different producer
threads/processes yield rows whose `process_id` and `thread_name`
columns differ and equal the records' own fields — those columns are
taken from the event being formatted, contradicting the claim that
they come from the pipeline's own process context. -/
theorem C5_counterexample :
    (formatRecord "pipeline-host" recA).process_id = recA.process ∧
    (formatRecord "pipeline-host" recA).thread_name = recA.threadName ∧
    (formatRecord "pipeline-host" recB).process_id ≠
      (formatRecord "pipeline-host" recA).process_id ∧
    (formatRecord "pipeline-host" recB).thread_name ≠
      (formatRecord "pipeline-host" recA).thread_name := by
  decide

/-- C5 amended: the host column is stamped from the pipeline's own
context (the hostname captured at construction), while the process
identifier and thread-name columns are copied from the event record's
own captured fields. -/
theorem C5_column_provenance (h : String) (r : LogRecord) :
    (formatRecord h r).host = h ∧
    (formatRecord h r).process_id = r.process ∧
    (formatRecord h r).thread_name = r.threadName :=
  ⟨rfl, rfl, rfl⟩

/-- C9: an exception raised inside one iteration of the running worker
loop is caught by the iteration's handler: the error is logged, a
fixed one-second back-off follows, and the state — `running` in
particular — is untouched, so the loop proceeds to its next
iteration rather than terminating. -/
theorem C9_iteration_error_handled (s : HandlerState) (err : String)
    (hr : s.running = true) :
    (workerStep s (Except.error err)).1 = s ∧
    (workerStep s (Except.error err)).1.running = true ∧
    (workerStep s (Except.error err)).2 =
      [Effect.workerError, Effect.backoff 1] :=
  ⟨rfl, hr, rfl⟩

/-- Witness for C9 at a concrete running state and a concrete raised
error. -/
theorem C9_iteration_error_handled_witness :
    sampleState.running = true ∧
    (workerStep sampleState (Except.error "boom")).1.running = true :=
  ⟨rfl, (C9_iteration_error_handled sampleState "boom" rfl).2.1⟩

/-- Helper: the dequeue attempt changes neither the configured batch
size nor the flush timer. -/
theorem dequeueStep_frame (s : HandlerState) :
    (dequeueStep s).batch_size = s.batch_size ∧
    (dequeueStep s).last_flush = s.last_flush ∧
    (dequeueStep s).flush_interval = s.flush_interval := by
  unfold dequeueStep
  rcases s.log_queue.get with _ | ⟨r, q⟩
  · exact ⟨rfl, rfl, rfl⟩
  · exact ⟨rfl, rfl, rfl⟩

/-- Helper: the boolean flush condition of the code agrees with the
trigger predicate worded by the specification. -/
theorem shouldFlush_iff (s : HandlerState) (now : Nat) :
    shouldFlush s now = true ↔
      flushTrigger s.batch s.batch_size (now - s.last_flush) s.flush_interval := by
  unfold shouldFlush flushTrigger
  simp [List.isEmpty_iff, and_comm]

/-- C3: after every dequeue attempt — an event or a timeout — the
worker performs a flush if and only if the post-dequeue batch length
is at least `batch_size`, or the batch is non-empty and the elapsed
time since the last flush is at least `flush_interval`. -/
theorem C3_flush_exactly_on_trigger (env : Env) (now : Nat) (s : HandlerState) :
    (workerIterBody env now s).2.2 = true ↔
      flushTrigger (dequeueStep s).batch s.batch_size (now - s.last_flush)
        s.flush_interval := by
  have hf := dequeueStep_frame s
  rw [← hf.1, ← hf.2.1, ← hf.2.2, ← shouldFlush_iff]
  unfold workerIterBody
  by_cases h : shouldFlush (dequeueStep s) now <;> simp [h]

/-- C4: when `executeBatch` raises during a flush the error is logged,
the batch is cleared anyway, the connection is invalidated and exactly
one execute attempt was consumed (no retry within the flush); and on a
later flush cycle with no connection, a fresh reconnect is attempted
and, once it succeeds with a healthy sink, the then-current batch is
delivered. -/
theorem C4_flush_failure_and_reconnect (env : Env) (s : HandlerState)
    (hb : s.batch ≠ []) (hc : s.connection = true)
    (he : env.execOutcome s.execAttempts = false) :
    flushBatch env s =
      ({ s with batch := [], connection := false,
                execAttempts := s.execAttempts + 1 }, [Effect.flushError]) ∧
    (∀ env2 s2, s2.connection = false → s2.batch ≠ [] →
      env2.connectOutcome s2.connAttempts = true →
      env2.execOutcome s2.execAttempts = true →
      flushBatch env2 s2 =
        ({ s2 with batch := [], connection := true,
                   connAttempts := s2.connAttempts + 1,
                   execAttempts := s2.execAttempts + 1 },
         [Effect.connectAttempt true, Effect.delivered s2.batch])) := by
  constructor
  · unfold flushBatch
    simp [hb, hc, he]
  · intro env2 s2 h1 h2 h3 h4
    unfold flushBatch connectStep
    simp [h1, h2, h3, h4]

/-- A state holding one pending row over a live connection. -/
def sFail : HandlerState := { sampleState with batch := [row0] }

/-- A state holding one pending row with the connection invalidated. -/
def sReconn : HandlerState := { sampleState with batch := [row0], connection := false }

/-- Witness for C4: a concrete failing flush and a concrete successful
reconnect-and-deliver flush. -/
theorem C4_flush_failure_and_reconnect_witness :
    flushBatch failEnv sFail =
      ({ sFail with batch := [], connection := false,
                    execAttempts := sFail.execAttempts + 1 },
       [Effect.flushError]) ∧
    flushBatch okEnv sReconn =
      ({ sReconn with batch := [], connection := true,
                      connAttempts := sReconn.connAttempts + 1,
                      execAttempts := sReconn.execAttempts + 1 },
       [Effect.connectAttempt true, Effect.delivered sReconn.batch]) := by
  have h := C4_flush_failure_and_reconnect failEnv sFail (by decide) rfl rfl
  exact ⟨h.1, h.2 okEnv sReconn rfl (by decide) rfl rfl⟩

/-- C7 counterexample: the filter in `emit` is a prefix test, not an
equality test — a record named "snowflake.connector.network", whose
name is different from the internal name "snowflake", is still
swallowed and never reaches the queue, refuting the part of the claim
that all events other than the internal logger name are delegated. -/
theorem C7_counterexample :
    recConnector.name ≠ "snowflake" ∧
    emitRun sampleState recConnector = sampleState ∧
    (emitRun sampleState recConnector).log_queue.items = [] := by
  decide

/-- C7 amended: `emit` filters exactly the events whose source name
starts with "snowflake" (the connector namespace filter that prevents
the feedback loop); every other event is appended to the queue, which
as constructed is unbounded. -/
theorem C7_self_filter (s : HandlerState) (r : LogRecord)
    (hq : s.log_queue.maxsize = 0) :
    (pyStartsWith r.name "snowflake" = true → emitRun s r = s) ∧
    (pyStartsWith r.name "snowflake" = false →
      (emitRun s r).log_queue.items = s.log_queue.items ++ [r]) := by
  constructor
  · intro h
    unfold emitRun emit
    simp [h]
  · intro h
    rw [emitRun_unbounded s r hq h]

/-- Witness for C7 at a concrete state and a concrete filtered
record. -/
theorem C7_self_filter_witness :
    sampleState.log_queue.maxsize = 0 ∧
    ((pyStartsWith recConnector.name "snowflake" = true →
       emitRun sampleState recConnector = sampleState) ∧
     (pyStartsWith recConnector.name "snowflake" = false →
       (emitRun sampleState recConnector).log_queue.items =
         sampleState.log_queue.items ++ [recConnector])) :=
  ⟨rfl, C7_self_filter sampleState recConnector rfl⟩

/-- C8 counterexample: a configuration supplying both a password and a
token passes `__init__` validation — construction succeeds, refuting
the exactly-one-credential claim. -/
theorem C8_counterexample :
    cfgBoth.password.isSome = true ∧ cfgBoth.token.isSome = true ∧
    ∃ s, initHandler true "pipeline-host" cfgBoth = Except.ok s :=
  ⟨rfl, rfl, ⟨_, rfl⟩⟩

/-- C8 amended: construction fails exactly when neither a password nor
a token is provided; supplying both is accepted, and `_connect` then
uses the token (OAuth), shadowing the password. -/
theorem C8_credential_validation (hostname : String) (cfg : HandlerConfig) :
    ((∃ s, initHandler true hostname cfg = Except.ok s) ↔
      (cfg.password.isSome ∨ cfg.token.isSome)) ∧
    ∀ p t, credParams (some p) (some t) =
      [("token", t), ("authenticator", "oauth")] := by
  constructor
  · unfold initHandler
    rcases hp : cfg.password with _ | p <;>
      rcases ht : cfg.token with _ | t <;> simp [hp, ht]
  · intro p t
    rfl

/-- C2 counterexample: the queue is constructed by `queue.Queue()`
with no capacity bound, so with the worker paused all ten submitted
events are retained — more than the three the claim allows. -/
theorem C2_counterexample :
    ∃ s0, initHandler true "pipeline-host" cfg0 = Except.ok s0 ∧
      (List.foldl emitRun s0 (List.replicate 10 recA)).log_queue.items.length = 10 ∧
      ¬ (List.foldl emitRun s0 (List.replicate 10 recA)).log_queue.items.length ≤ 3 := by
  refine ⟨_, rfl, ?_, ?_⟩ <;> decide

/-- C2 amended: the queue is created without a capacity bound
(`queue.Queue()` with maxsize 0); `submit` never blocks, never raises
and never evicts an already-queued event, and with the worker paused
every submitted non-filtered event is retained — submitting 10 events
retains all 10. -/
theorem C2_unbounded_queue_retention (s : HandlerState) (recs : List LogRecord)
    (hq : s.log_queue.maxsize = 0)
    (hn : ∀ r ∈ recs, pyStartsWith r.name "snowflake" = false) :
    (List.foldl emitRun s recs).log_queue.items = s.log_queue.items ++ recs := by
  revert hn
  induction recs generalizing s with
  | nil =>
    intro _
    simp
  | cons r rest ih =>
    intro hn
    have h1 := emitRun_unbounded s r hq (hn r (List.mem_cons_self r rest))
    simp only [List.foldl_cons, h1]
    rw [ih _ rfl (fun x hx => hn x (List.mem_cons_of_mem r hx))]
    simp

/-- Witness for C2 amended: ten concrete events folded through `emit`
from the constructed state are all retained. -/
theorem C2_unbounded_queue_retention_witness :
    sampleState.log_queue.maxsize = 0 ∧
    (List.foldl emitRun sampleState (List.replicate 10 recA)).log_queue.items =
      sampleState.log_queue.items ++ List.replicate 10 recA :=
  ⟨rfl, C2_unbounded_queue_retention sampleState (List.replicate 10 recA) rfl
    (by decide)⟩
